import Mathlib

/-!
Shallow embedding of the recruitment pipeline service
(recruitment/services/pipeline.py, recruitment/services/reject_reasons.py,
recruitment/models.py, recruitment/serializers.py, recruitment/views.py).

Conventions of the embedding:
- database rows are records, the store is a record of row lists;
- timestamps are natural numbers (an abstract clock; the caller passes now);
- Python exceptions become an explicit error type; raises that the view
  catches are modelled by the corresponding response branch;
- each ORM create or save commits immediately (Django autocommit: the view
  wraps nothing in a transaction), so a raise between two writes keeps the
  writes already made.
-/

namespace Recruitment

/-- Single quote character, used to build the literal error messages. -/
def sq : String := String.singleton (Char.ofNat 39)

/-- models.py Application.STATUS_CHOICES. -/
def STATUS_CHOICES : List (String × String) :=
  [("applied", "Applied"),
   ("phone_screen", "Phone Screen"),
   ("onsite", "Onsite"),
   ("offer", "Offer"),
   ("hired", "Hired"),
   ("rejected", "Rejected")]

/-- views.py: valid_statuses = dict(Application.STATUS_CHOICES).keys(). -/
def valid_statuses : List String := STATUS_CHOICES.map Prod.fst

/-- services/pipeline.py PIPELINE_TRANSITIONS, as the lookup
dict.get(current_status, []): unknown keys give the empty list. -/
def PIPELINE_TRANSITIONS (current_status : String) : List String :=
  if current_status = "applied" then ["phone_screen", "rejected"]
  else if current_status = "phone_screen" then ["onsite", "rejected"]
  else if current_status = "onsite" then ["offer", "rejected"]
  else if current_status = "offer" then ["hired", "rejected"]
  else if current_status = "hired" then []
  else if current_status = "rejected" then []
  else []

/-- Python exceptions that the view distinguishes. -/
inductive PyError where
  | validationError (msg : String)
  | valueError (msg : String)
  | integrityError
deriving DecidableEq

instance exceptDecEq {α β : Type} [DecidableEq α] [DecidableEq β] :
    DecidableEq (Except α β) := fun x y =>
  match x, y with
  | Except.error a, Except.error b =>
    if h : a = b then isTrue (by rw [h])
    else isFalse (by intro hc; cases hc; exact h rfl)
  | Except.error _, Except.ok _ => isFalse (by intro hc; cases hc)
  | Except.ok _, Except.error _ => isFalse (by intro hc; cases hc)
  | Except.ok a, Except.ok b =>
    if h : a = b then isTrue (by rw [h])
    else isFalse (by intro hc; cases hc; exact h rfl)

/-- Double quote character, used by the Python string repr below. -/
def dq : String := String.singleton (Char.ofNat 34)

/-- repr of a Python str, for strings without backslashes or control
characters: CPython quotes with single quotes, unless the string
contains a single quote and no double quote, in which case it quotes
with double quotes. -/
def pyStrRepr (s : String) : String :=
  if s.data.contains (Char.ofNat 39) && !(s.data.contains (Char.ofNat 34)) then
    dq ++ s ++ dq
  else
    sq ++ s ++ sq

/-- str(e) for the caught exceptions: str of a Django ValidationError is
repr of its message list, so the message is bracketed and quoted by the
repr rule above; str of a ValueError is the message itself. -/
def PyError.str : PyError → String
  | .validationError m => "[" ++ pyStrRepr m ++ "]"
  | .valueError m => m
  | .integrityError => "IntegrityError"

/-- models.py Application row. -/
structure Application where
  id : Nat
  candidate : Nat
  job : Nat
  status : String
  score : Option Int
  applied_at : Nat
  hired_at : Option Nat
deriving DecidableEq

/-- models.py StageHistory row. -/
structure StageHistory where
  application : Nat
  stage : String
  entered_at : Nat
  note : String
deriving DecidableEq

/-- The JSON payload stored in AuditLog.data by the view. -/
structure AuditData where
  old_status : String
  new_status : String
  note : String
  reject_reason : Option String
deriving DecidableEq

/-- models.py AuditLog row. The actor is the username of the acting
user, none for anonymous or system actions. -/
structure AuditLog where
  actor : Option String
  verb : String
  target_type : String
  target_id : String
  timestamp : Nat
  data : AuditData
deriving DecidableEq

/-- The persistent store: the three tables the transition engine touches. -/
structure DB where
  applications : List Application
  histories : List StageHistory
  audits : List AuditLog
deriving DecidableEq

/-- The message built by the f-string in services/pipeline.py. -/
def transitionMsg (current_status new_status : String) : String :=
  "Transition from " ++ sq ++ current_status ++ sq ++ " to " ++ sq ++
    new_status ++ sq ++ " is not allowed."

/-- services/pipeline.py validate_transition: reads application.status,
raises ValidationError when new_status is not in the allowed list.
The user argument is only logged in the source. -/
def validate_transition (application : Application) (new_status : String)
    (user : Option String) : Except PyError Unit :=
  let current_status := application.status
  let _ := user
  let allowed := PIPELINE_TRANSITIONS current_status
  if allowed.contains new_status then Except.ok ()
  else Except.error (PyError.validationError (transitionMsg current_status new_status))

/-- services/reject_reasons.py REJECT_REASONS. -/
def REJECT_REASONS : List (String × String) :=
  [("culture_fit", "Not a culture fit"),
   ("technical_skills", "Insufficient technical skills"),
   ("experience", "Insufficient experience"),
   ("salary", "Salary expectations mismatch"),
   ("position_closed", "Position closed")]

/-- services/reject_reasons.py validate_reject_reason: raises ValueError
when the code is not a key of REJECT_REASONS. -/
def validate_reject_reason (reason : String) : Except PyError Unit :=
  if (REJECT_REASONS.map Prod.fst).contains reason then Except.ok ()
  else Except.error (PyError.valueError "Invalid reject reason")

/-- The score bound checked in models.py Application.save and in
serializers.py ApplicationSerializer.validate: score is None or in 0..100. -/
def scoreOk : Option Int → Bool
  | none => true
  | some s => decide (0 ≤ s ∧ s ≤ 100)

/-- The exact message of the score checks in models.py and serializers.py. -/
def scoreMsg : String := "Score must be between values 0 and 100 included."

/-- The non-terminal statuses, as enumerated in the partial unique
constraint of models.py Application.Meta. -/
def activeStatuses : List String := ["applied", "phone_screen", "onsite", "offer"]

/-- models.py Application.Meta unique_active_application constraint:
saving row a fails when another row with the same candidate and job is in
a non-terminal status while a is too. -/
def violatesUniqueActive (db : DB) (a : Application) : Bool :=
  db.applications.any fun b =>
    b.id != a.id && b.candidate == a.candidate && b.job == a.job &&
      activeStatuses.contains b.status && activeStatuses.contains a.status

/-- Store row a: replace the row with the same id, or append it. -/
def upsertApplication (db : DB) (a : Application) : DB :=
  if db.applications.any fun b => b.id == a.id then
    { db with applications := db.applications.map fun b => if b.id == a.id then a else b }
  else
    { db with applications := db.applications ++ [a] }

/-- models.py Application.save: raises ValueError before persisting when
the score is out of range, then persists through the database, whose
partial unique constraint may raise IntegrityError. -/
def Application.save (a : Application) (db : DB) : Except PyError DB :=
  if scoreOk a.score = false then Except.error (PyError.valueError scoreMsg)
  else if violatesUniqueActive db a then Except.error PyError.integrityError
  else Except.ok (upsertApplication db a)

/-- views.py self.get_object(): look the application up by primary key. -/
def findApplication (db : DB) (pk : Nat) : Option Application :=
  db.applications.find? fun a => a.id == pk

/-- Body of the PATCH status request; absent fields are none. -/
structure StatusRequest where
  status : Option String := none
  note : Option String := none
  reject_reason : Option String := none
deriving DecidableEq

/-- Outcome of update_status: 200 with the serialized application,
400 with a JSON object, 404 from get_object, or 500. -/
inductive UpdateResult where
  | success (app : Application)
  | clientError (body : List (String × String))
  | notFound
  | serverError (body : List (String × String))
deriving DecidableEq

/-- Step 5 of views.py update_status: StageHistory.objects.create with
the requested stage, the note and the current time. -/
def historyAppended (db : DB) (application : Application) (new_status note : String)
    (now : Nat) : DB :=
  { db with histories := db.histories ++
    [{ application := application.id, stage := new_status, entered_at := now, note := note }] }

/-- Step 6 of views.py update_status: application.status = new_status,
and when hiring, application.hired_at = timezone.now() with no check of
a previously set value. -/
def mutatedApp (application : Application) (new_status : String) (now : Nat) : Application :=
  { application with
    status := new_status,
    hired_at := if new_status = "hired" then some now else application.hired_at }

/-- Step 8 of views.py update_status: the AuditLog row. Its old_status
field is filled from application.status, which was already overwritten
with the new status in step 6. -/
def auditEntry (application : Application) (new_status note : String)
    (reject_reason user : Option String) (now : Nat) : AuditLog :=
  { actor := user,
    verb := "application_status_changed",
    target_type := "Application",
    target_id := toString application.id,
    timestamp := now,
    data := { old_status := (mutatedApp application new_status now).status,
              new_status := new_status,
              note := note,
              reject_reason := reject_reason } }

/-- Steps 5 to 8 of views.py update_status, inside the try block: create
the StageHistory row, mutate the application, save it, create the
AuditLog row. A raise from save is caught by the except clauses of the
view with the StageHistory row already committed: ValueError maps to a
400 response, any other exception to a 500. -/
def runMutation (db : DB) (application : Application) (new_status note : String)
    (reject_reason : Option String) (user : Option String) (now : Nat) :
    UpdateResult × DB :=
  match Application.save (mutatedApp application new_status now)
      (historyAppended db application new_status note now) with
  | Except.error PyError.integrityError =>
      (UpdateResult.serverError [("error", "Internal server error")],
       historyAppended db application new_status note now)
  | Except.error e =>
      (UpdateResult.clientError [("error", PyError.str e)],
       historyAppended db application new_status note now)
  | Except.ok db2 =>
      (UpdateResult.success (mutatedApp application new_status now),
       { db2 with audits := db2.audits ++
          [auditEntry application new_status note reject_reason user now] })

/-- views.py ApplicationViewSet.update_status, PATCH .../status/.
Follows the source order: get_object, valid_statuses membership,
validate_transition, reject-reason checks, then the mutation block.
The except clauses map ValidationError and ValueError to a 400 response
with an error key holding str(e), and any other exception to a 500. -/
def update_status (db : DB) (pk : Nat) (req : StatusRequest)
    (user : Option String) (now : Nat) : UpdateResult × DB :=
  match findApplication db pk with
  | none => (UpdateResult.notFound, db)
  | some application =>
    let _old_status := application.status
    let note := req.note.getD ""
    let reject_reason := req.reject_reason
    match req.status with
    | none => (UpdateResult.clientError [("detail", "Invalid status")], db)
    | some new_status =>
      if valid_statuses.contains new_status = false then
        (UpdateResult.clientError [("detail", "Invalid status")], db)
      else
        match validate_transition application new_status user with
        | Except.error e =>
            (UpdateResult.clientError [("error", PyError.str e)], db)
        | Except.ok _ =>
          if new_status = "rejected" ∧ reject_reason.getD "" = "" then
            (UpdateResult.clientError
              [("detail", "reject_reason is required when rejecting an application")], db)
          else if new_status = "rejected" then
            match validate_reject_reason (reject_reason.getD "") with
            | Except.error e =>
                (UpdateResult.clientError [("error", PyError.str e)], db)
            | Except.ok _ =>
                runMutation db application new_status note reject_reason user now
          else
            runMutation db application new_status note reject_reason user now

/-- serializers.py ApplicationSerializer.validate: on create, reject a
second application for a candidate and job pair that still has one in a
status other than rejected or hired; then check the score range. -/
def serializer_validate (db : DB) (is_create : Bool) (candidate job : Nat)
    (score : Option Int) : Except PyError Unit :=
  if is_create &&
      db.applications.any (fun b =>
        b.candidate == candidate && b.job == job &&
          !(b.status == "rejected" || b.status == "hired")) then
    Except.error (PyError.validationError
      "Candidate already has an active application for this job")
  else if scoreOk score = false then
    Except.error (PyError.validationError scoreMsg)
  else Except.ok ()

/-- serializers.py helper: the active-duplicate test used on create. -/
def hasActiveApplication (db : DB) (candidate job : Nat) : Bool :=
  db.applications.any fun b =>
    b.candidate == candidate && b.job == job &&
      !(b.status == "rejected" || b.status == "hired")

/-- POST /applications/: serializer validation then the model save, as
wired in views.py ApplicationViewSet (ModelViewSet create). -/
def createApplication (db : DB) (newId candidate job : Nat) (score : Option Int)
    (stat : String) (now : Nat) : Except PyError DB :=
  match serializer_validate db true candidate job score with
  | Except.error e => Except.error e
  | Except.ok _ =>
    Application.save
      { id := newId, candidate := candidate, job := job, status := stat,
        score := score, applied_at := now, hired_at := none } db

/-- models.py Application.days_to_hire. -/
def days_to_hire (a : Application) : Option Nat :=
  match a.hired_at with
  | some h => some ((h - a.applied_at) / 86400)
  | none => none

/-- The transition table as the claim states it: the four single-step
forward moves, or a move to rejected from a non-terminal source. Written
from the specification for comparison with the code table. -/
def specAllowedTransition (f t : String) : Bool :=
  ([("applied", "phone_screen"), ("phone_screen", "onsite"),
    ("onsite", "offer"), ("offer", "hired")] : List (String × String)).contains (f, t)
  || (t == "rejected" && f != "hired" && f != "rejected")

/-- Concrete rows used by the witnesses and counterexamples. -/
def sampleApp : Application :=
  { id := 1, candidate := 1, job := 1, status := "applied",
    score := some 85, applied_at := 0, hired_at := none }

def sampleDB : DB := { applications := [sampleApp], histories := [], audits := [] }

/-- An application in a non-active status never trips the partial unique
constraint. -/
theorem violatesUniqueActive_inactive (db : DB) (a : Application)
    (h : activeStatuses.contains a.status = false) :
    violatesUniqueActive db a = false := by
  unfold violatesUniqueActive
  rw [List.any_eq_false]
  intro b _
  simp at h
  simp [h]

/-- C1: the transition validator permits exactly the pairs of the
transition table of the spec: single-step forward moves and moves to
rejected from a non-terminal stage; every other pair of stages is
refused with a ValidationError carrying the exact message built from the
two stages. -/
theorem C1_transition_table (a : Application) (u : Option String) (t : String)
    (hf : a.status ∈ valid_statuses) (ht : t ∈ valid_statuses) :
    (validate_transition a t u = Except.ok () ↔ specAllowedTransition a.status t = true) ∧
    (specAllowedTransition a.status t = false →
      validate_transition a t u =
        Except.error (PyError.validationError (transitionMsg a.status t))) := by
  have key : ∀ f ∈ valid_statuses, ∀ s ∈ valid_statuses,
      (PIPELINE_TRANSITIONS f).contains s = specAllowedTransition f s := by decide
  have h1 : validate_transition a t u =
      (if (PIPELINE_TRANSITIONS a.status).contains t then Except.ok ()
       else Except.error (PyError.validationError (transitionMsg a.status t))) := rfl
  rw [key a.status hf t ht] at h1
  constructor
  · rw [h1]
    cases hsp : specAllowedTransition a.status t
    · simp [hsp]
    · simp [hsp]
  · intro hsp
    rw [h1, hsp]
    simp

/-- Witness for C1 at the concrete pair applied to phone_screen. -/
theorem C1_transition_table_witness :
    (validate_transition sampleApp "phone_screen" none = Except.ok () ↔
      specAllowedTransition sampleApp.status "phone_screen" = true) ∧
    (specAllowedTransition sampleApp.status "phone_screen" = false →
      validate_transition sampleApp "phone_screen" none =
        Except.error (PyError.validationError (transitionMsg sampleApp.status "phone_screen"))) :=
  C1_transition_table sampleApp none "phone_screen" (by decide) (by decide)

/-- C2: evaluation of the view at a concrete transition from applied to
phone_screen. Exactly one AuditLog row is created, with the right verb,
target, actor and new_status, but its old_status field holds the NEW
status phone_screen, not the stage applied that the application was in
before the transition: the view reads application.status only after the
mutation, so the captured pre-transition status is never written. -/
theorem C2_audit_old_status :
    (update_status sampleDB 1
        { status := some "phone_screen", note := some "ok" } (some "recruiter") 7).2.audits =
      [{ actor := some "recruiter", verb := "application_status_changed",
         target_type := "Application", target_id := "1", timestamp := 7,
         data := { old_status := "phone_screen", new_status := "phone_screen",
                   note := "ok", reject_reason := none } }] ∧
    sampleApp.status = "applied" ∧ "phone_screen" ≠ "applied" := by decide

/-- Rows used for the atomicity evaluation: a stored application whose
score is out of range (reachable only through writes that bypass
Application.save, such as a queryset update). -/
def badScoreApp : Application :=
  { id := 3, candidate := 2, job := 2, status := "applied", score := some 150,
    applied_at := 0, hired_at := none }

def badScoreDB : DB := { applications := [badScoreApp], histories := [], audits := [] }

/-- C3: evaluation of the view at an execution where step 7 fails after
the step 5 history write: Application.save raises ValueError, the view
answers 400, and the final store keeps the new StageHistory row while
the application row still holds the old stage applied — the unit is not
rolled back, history and live stage disagree. -/
theorem C3_partial_write :
    (update_status badScoreDB 3 { status := some "phone_screen" } (some "recruiter") 4).1 =
      UpdateResult.clientError [("error", scoreMsg)] ∧
    (update_status badScoreDB 3 { status := some "phone_screen" } (some "recruiter") 4).2 =
      { applications := [badScoreApp],
        histories := [{ application := 3, stage := "phone_screen", entered_at := 4, note := "" }],
        audits := [] } := by decide

/-- Rows used for the hired_at counterexample: an application at stage
offer that already carries a hired timestamp (the serializer exposes
hired_at as a writable field, so such a row can be created). -/
def preHiredApp : Application :=
  { id := 2, candidate := 3, job := 3, status := "offer", score := none,
    applied_at := 0, hired_at := some 5 }

def preHiredDB : DB := { applications := [preHiredApp], histories := [], audits := [] }

/-- C4 counterexample: transitioning an application that already has
hired_at = 5 into the hired stage at time 10 overwrites the timestamp
with 10 — the engine does not check whether hired_at is already set. -/
theorem C4_overwrite_counterexample :
    (update_status preHiredDB 2 { status := some "hired" } (some "recruiter") 10).1 =
      UpdateResult.success { preHiredApp with status := "hired", hired_at := some 10 } ∧
    preHiredApp.hired_at = some 5 ∧ some (5 : Nat) ≠ some (10 : Nat) := by decide

/-- C7: evaluation of the view at the illegal transition applied to
offer: the 400 body is a JSON object whose key is error, holding str of
the ValidationError — the message list repr, which brackets the message
and, because the message itself contains single quotes, wraps it in
double quotes — not the object with key detail and the bare message
that the spec (and the integration test) require. -/
theorem C7_error_body_shape :
    (update_status sampleDB 1 { status := some "offer" } (some "recruiter") 3).1 =
      UpdateResult.clientError
        [("error", "[" ++ dq ++ transitionMsg "applied" "offer" ++ dq ++ "]")] ∧
    (update_status sampleDB 1 { status := some "offer" } (some "recruiter") 3).1 ≠
      UpdateResult.clientError [("detail", transitionMsg "applied" "offer")] := by decide

/-- C5: the view checks its preconditions in the fixed order NotFound,
InvalidStage, IllegalTransition, MissingRejectReason, InvalidRejectReason
and answers with the first violated one: an unknown status yields the
InvalidStage response whatever the current stage, and an illegal
transition to rejected yields the IllegalTransition response whatever the
reject reason. -/
theorem C5_error_precedence (db : DB) (pk : Nat) (req : StatusRequest)
    (user : Option String) (now : Nat) :
    (findApplication db pk = none →
      update_status db pk req user now = (UpdateResult.notFound, db)) ∧
    (∀ application, findApplication db pk = some application →
      ((∀ s, req.status = some s → valid_statuses.contains s = false) →
        update_status db pk req user now =
          (UpdateResult.clientError [("detail", "Invalid status")], db)) ∧
      (∀ s e, req.status = some s → valid_statuses.contains s = true →
        validate_transition application s user = Except.error e →
        update_status db pk req user now =
          (UpdateResult.clientError [("error", PyError.str e)], db)) ∧
      (req.status = some "rejected" →
        validate_transition application "rejected" user = Except.ok () →
        req.reject_reason.getD "" = "" →
        update_status db pk req user now =
          (UpdateResult.clientError
            [("detail", "reject_reason is required when rejecting an application")], db)) ∧
      (∀ code e, req.status = some "rejected" →
        validate_transition application "rejected" user = Except.ok () →
        req.reject_reason = some code → code ≠ "" →
        validate_reject_reason code = Except.error e →
        update_status db pk req user now =
          (UpdateResult.clientError [("error", PyError.str e)], db))) := by
  constructor
  · intro h
    unfold update_status
    rw [h]
  · intro application hfind
    refine ⟨?_, ?_, ?_, ?_⟩
    · intro hs
      unfold update_status
      rw [hfind]
      cases hst : req.status with
      | none => rfl
      | some s =>
        have hnot : s ∉ valid_statuses := by simpa using hs s hst
        simp [hnot]
    · intro s e hst hvalid htrans
      have hmem : s ∈ valid_statuses := by simpa using hvalid
      unfold update_status
      rw [hfind]
      simp [hst, hmem, htrans]
    · intro hst htrans hmiss
      unfold update_status
      rw [hfind]
      simp [hst, htrans, hmiss]
      decide
    · intro code e hst htrans hrr hcode hreason
      unfold update_status
      rw [hfind]
      simp [hst, htrans, hrr, hcode, hreason]
      decide

/-- Witness for C5: illegal transition applied to offer wins over the
missing reject reason and answers with the transition error. -/
theorem C5_error_precedence_witness :
    update_status sampleDB 1 { status := some "offer" } none 0 =
      (UpdateResult.clientError
        [("error", PyError.str (PyError.validationError (transitionMsg "applied" "offer")))],
       sampleDB) :=
  (((C5_error_precedence sampleDB 1 { status := some "offer" } none 0).2 sampleApp
      (by decide)).2.1) "offer" (PyError.validationError (transitionMsg "applied" "offer"))
    rfl (by decide) (by decide)

/-- C10: a transition request that fails one of the validation checks
before the history write (unknown status, illegal transition, missing or
invalid reject reason) leaves the whole store untouched and is never a
success. -/
theorem C10_no_write_on_validation_failure (db : DB) (pk : Nat) (req : StatusRequest)
    (user : Option String) (now : Nat) (application : Application)
    (hfind : findApplication db pk = some application)
    (hfail : req.status = none ∨
      ∃ s, req.status = some s ∧
        (valid_statuses.contains s = false ∨
         (∃ e, validate_transition application s user = Except.error e) ∨
         (s = "rejected" ∧ (req.reject_reason.getD "" = "" ∨
            ∃ e, validate_reject_reason (req.reject_reason.getD "") = Except.error e)))) :
    (update_status db pk req user now).2 = db ∧
    ∀ a, (update_status db pk req user now).1 ≠ UpdateResult.success a := by
  unfold update_status
  rw [hfind]
  rcases hfail with hnone | ⟨s, hst, hcase⟩
  · rw [hnone]
    exact ⟨rfl, by simp⟩
  · rw [hst]
    rcases hcase with hv | ⟨e, htrans⟩ | ⟨hrej, hrr⟩
    · have hnot : s ∉ valid_statuses := by simpa using hv
      simp [hnot]
    · by_cases hmem : s ∈ valid_statuses
      · simp [hmem, htrans]
      · simp [hmem]
    · subst hrej
      have hmem : ("rejected" : String) ∈ valid_statuses := by decide
      cases htr : validate_transition application "rejected" user with
      | error e => simp [hmem, htr]
      | ok u =>
        by_cases hmiss : req.reject_reason.getD "" = ""
        · simp [hmem, htr, hmiss]
        · rcases hrr with h | ⟨e, hreason⟩
          · exact absurd h hmiss
          · simp [hmem, htr, hmiss, hreason]

/-- Witness for C10 at an unknown status value. -/
theorem C10_no_write_witness :
    (update_status sampleDB 1 { status := some "bogus" } none 0).2 = sampleDB ∧
    ∀ a, (update_status sampleDB 1 { status := some "bogus" } none 0).1 ≠
      UpdateResult.success a :=
  C10_no_write_on_validation_failure sampleDB 1 { status := some "bogus" } none 0 sampleApp
    (by decide) (Or.inr ⟨"bogus", rfl, Or.inl (by decide)⟩)

/-- The mutation block either succeeds with exactly the mutated
application, or fails leaving the applications table as it was. -/
theorem runMutation_cases (db : DB) (application : Application)
    (new_status note : String) (rr user : Option String) (now : Nat) :
    ((runMutation db application new_status note rr user now).1 =
        UpdateResult.success (mutatedApp application new_status now)) ∨
    ((runMutation db application new_status note rr user now).2.applications =
        db.applications ∧
      ∀ a, (runMutation db application new_status note rr user now).1 ≠
        UpdateResult.success a) := by
  unfold runMutation
  split
  · right; exact ⟨rfl, by simp⟩
  · right; exact ⟨rfl, by simp⟩
  · left; rfl

/-- Reaching the mutation block: when every precondition passes, the view
evaluates to the mutation block itself, or fails early with the store
untouched on the applications table and no success. -/
theorem update_status_cases (db : DB) (pk : Nat) (req : StatusRequest)
    (user : Option String) (now : Nat) (application : Application)
    (hfind : findApplication db pk = some application) :
    (∃ s, req.status = some s ∧
      update_status db pk req user now =
        runMutation db application s (req.note.getD "") req.reject_reason user now) ∨
    ((update_status db pk req user now).2 = db ∧
      ∀ a, (update_status db pk req user now).1 ≠ UpdateResult.success a) := by
  unfold update_status
  rw [hfind]
  cases hst : req.status with
  | none => right; exact ⟨rfl, by simp⟩
  | some s =>
    by_cases hmem : s ∈ valid_statuses
    · cases htr : validate_transition application s user with
      | error e => right; refine ⟨?_, ?_⟩ <;> simp [hmem, htr]
      | ok u =>
        by_cases hrej : s = "rejected"
        · subst hrej
          by_cases hmiss : req.reject_reason.getD "" = ""
          · right; refine ⟨?_, ?_⟩ <;> simp [hmem, htr, hmiss]
          · cases hre : validate_reject_reason (req.reject_reason.getD "") with
            | error e => right; refine ⟨?_, ?_⟩ <;> simp [hmem, htr, hmiss, hre]
            | ok v => left; exact ⟨"rejected", rfl, by simp [hmem, htr, hmiss, hre]⟩
        · left; exact ⟨s, rfl, by simp [hmem, htr, hrej]⟩
    · right
      refine ⟨?_, ?_⟩ <;> simp [hmem]

/-- C4 as amended: the transition engine touches the hired timestamp
only on a successful transition whose requested stage is hired, where it
sets it to the current time unconditionally — overwriting any value
already present; on a transition to any other stage the returned
application keeps its previous hired timestamp, and on any failed
request the applications table is unchanged, so the engine never clears
a set timestamp. -/
theorem C4_hired_at_amended (db : DB) (pk : Nat) (req : StatusRequest)
    (user : Option String) (now : Nat) (application : Application)
    (hfind : findApplication db pk = some application) :
    (∀ a s, req.status = some s →
      (update_status db pk req user now).1 = UpdateResult.success a →
      a.hired_at = if s = "hired" then some now else application.hired_at) ∧
    ((∀ a, (update_status db pk req user now).1 ≠ UpdateResult.success a) →
      (update_status db pk req user now).2.applications = db.applications) := by
  rcases update_status_cases db pk req user now application hfind with
    ⟨s, hst, heq⟩ | ⟨h2, h3⟩
  · constructor
    · intro a s2 hst2 hsucc
      have hs2 : s2 = s := by
        rw [hst] at hst2
        exact (Option.some.inj hst2).symm
      subst hs2
      rw [heq] at hsucc
      rcases runMutation_cases db application s2 (req.note.getD "") req.reject_reason user now with
        h1 | ⟨_, hno⟩
      · rw [h1] at hsucc
        have : mutatedApp application s2 now = a := UpdateResult.success.inj hsucc
        rw [← this]
        rfl
      · exact absurd hsucc (hno a)
    · intro hns
      rw [heq] at hns ⊢
      rcases runMutation_cases db application s (req.note.getD "") req.reject_reason user now with
        h1 | ⟨happ, _⟩
      · exact absurd h1 (hns (mutatedApp application s now))
      · exact happ
  · exact ⟨fun a s hst hsucc => absurd hsucc (h3 a), fun _ => by rw [h2]⟩

/-- Witness for C4 as amended: a successful move of the sample
application to phone_screen keeps the hired timestamp. -/
theorem C4_hired_at_amended_witness :
    ({ sampleApp with status := "phone_screen" } : Application).hired_at =
      (if "phone_screen" = "hired" then some 9 else sampleApp.hired_at) := by
  have h := (C4_hired_at_amended sampleDB 1 { status := some "phone_screen" } none 9 sampleApp
    (by decide)).1
  exact h { sampleApp with status := "phone_screen" } "phone_screen" rfl (by decide)

/-- C6: the registry accepts exactly the five codes culture_fit,
technical_skills, experience, salary and position_closed; at the
endpoint, for a legal transition to rejected, a missing reject reason
answers with the exact required-reason message, a code outside the set
answers with the message Invalid reject reason, and the code culture_fit
succeeds. -/
theorem C6_reject_reasons (db : DB) (pk : Nat) (user : Option String) (now : Nat)
    (application : Application)
    (hfind : findApplication db pk = some application)
    (hlegal : (PIPELINE_TRANSITIONS application.status).contains "rejected" = true) :
    (∀ code, validate_reject_reason code = Except.ok () ↔
      code ∈ ["culture_fit", "technical_skills", "experience", "salary", "position_closed"]) ∧
    (∀ nt, update_status db pk
        { status := some "rejected", note := nt, reject_reason := none } user now =
      (UpdateResult.clientError
        [("detail", "reject_reason is required when rejecting an application")], db)) ∧
    (∀ nt code, code ≠ "" →
      (REJECT_REASONS.map Prod.fst).contains code = false →
      update_status db pk
          { status := some "rejected", note := nt, reject_reason := some code } user now =
        (UpdateResult.clientError [("error", "Invalid reject reason")], db)) ∧
    (scoreOk application.score = true →
      ∀ nt, (update_status db pk
          { status := some "rejected", note := nt, reject_reason := some "culture_fit" }
          user now).1 =
        UpdateResult.success (mutatedApp application "rejected" now)) := by
  have hlegal2 : "rejected" ∈ PIPELINE_TRANSITIONS application.status := by
    simpa using hlegal
  have htr : validate_transition application "rejected" user = Except.ok () := by
    unfold validate_transition
    simp [hlegal2]
  have hmem : ("rejected" : String) ∈ valid_statuses := by decide
  refine ⟨?_, ?_, ?_, ?_⟩
  · intro code
    unfold validate_reject_reason
    constructor
    · intro h
      by_cases hc : (REJECT_REASONS.map Prod.fst).contains code = true
      · simpa [REJECT_REASONS] using hc
      · rw [Bool.not_eq_true] at hc
        rw [hc] at h
        simp at h
    · intro h
      have hc : (REJECT_REASONS.map Prod.fst).contains code = true := by
        simp [REJECT_REASONS]
        simpa using h
      rw [hc]
      simp
  · intro nt
    unfold update_status
    rw [hfind]
    simp [hmem, htr]
  · intro nt code hne hcode
    have hre : validate_reject_reason code = Except.error (PyError.valueError "Invalid reject reason") := by
      unfold validate_reject_reason
      rw [hcode]
      simp
    unfold update_status
    rw [hfind]
    simp [hmem, htr, hne, hre, PyError.str]
  · intro hscore nt
    have hre : validate_reject_reason "culture_fit" = Except.ok () := by decide
    have hvio : violatesUniqueActive
        (historyAppended db application "rejected" (nt.getD "") now)
        (mutatedApp application "rejected" now) = false :=
      violatesUniqueActive_inactive _ _ rfl
    have hsave : Application.save (mutatedApp application "rejected" now)
        (historyAppended db application "rejected" (nt.getD "") now) =
        Except.ok (upsertApplication
          (historyAppended db application "rejected" (nt.getD "") now)
          (mutatedApp application "rejected" now)) := by
      unfold Application.save
      have hs2 : scoreOk (mutatedApp application "rejected" now).score = true := hscore
      rw [hs2, hvio]
      simp
    unfold update_status
    rw [hfind]
    simp [hmem, htr, hre]
    unfold runMutation
    rw [hsave]

/-- Witness for C6: rejecting the sample application without a reason
answers 400 with the exact required-reason message. -/
theorem C6_reject_reasons_witness :
    update_status sampleDB 1
        { status := some "rejected", note := none, reject_reason := none } none 0 =
      (UpdateResult.clientError
        [("detail", "reject_reason is required when rejecting an application")], sampleDB) :=
  ((C6_reject_reasons sampleDB 1 none 0 sampleApp (by decide) (by decide)).2.1) none

/-- C8: a score below 0 or above 100 makes the model save raise before
persisting and makes the serializer validation fail with the same
message; a score in range, or no score, passes both layers, and the save
then persists. -/
theorem C8_score_range :
    (∀ (a : Application) (db : DB), scoreOk a.score = false →
      Application.save a db = Except.error (PyError.valueError scoreMsg)) ∧
    (∀ (a : Application) (db : DB), scoreOk a.score = true →
      violatesUniqueActive db a = false →
      Application.save a db = Except.ok (upsertApplication db a)) ∧
    (∀ s : Int, scoreOk (some s) = false ↔ s < 0 ∨ 100 < s) ∧
    scoreOk none = true ∧
    (∀ (db : DB) (isc : Bool) (c j : Nat) (sc : Option Int), scoreOk sc = false →
      (isc = true → hasActiveApplication db c j = false) →
      serializer_validate db isc c j sc = Except.error (PyError.validationError scoreMsg)) ∧
    (∀ (db : DB) (isc : Bool) (c j : Nat) (sc : Option Int), scoreOk sc = true →
      (isc = true → hasActiveApplication db c j = false) →
      serializer_validate db isc c j sc = Except.ok ()) := by
  refine ⟨?_, ?_, ?_, rfl, ?_, ?_⟩
  · intro a db h
    unfold Application.save
    rw [h]
    simp
  · intro a db h hvio
    unfold Application.save
    rw [h, hvio]
    simp
  · intro s
    simp [scoreOk]
    omega
  · intro db isc c j sc h hact
    unfold serializer_validate
    cases isc with
    | false => simp [h]
    | true =>
      have ha := hact rfl
      unfold hasActiveApplication at ha
      have hne : ¬ ∃ x ∈ db.applications,
          (x.candidate = c ∧ x.job = j) ∧ ¬x.status = "rejected" ∧ ¬x.status = "hired" := by
        simpa using ha
      simp [hne, h]
  · intro db isc c j sc h hact
    unfold serializer_validate
    cases isc with
    | false => simp [h]
    | true =>
      have ha := hact rfl
      unfold hasActiveApplication at ha
      have hne : ¬ ∃ x ∈ db.applications,
          (x.candidate = c ∧ x.job = j) ∧ ¬x.status = "rejected" ∧ ¬x.status = "hired" := by
        simpa using ha
      simp [hne, h]

/-- Witness for C8: a score of 150 is refused by the model save. -/
theorem C8_score_range_witness :
    Application.save { sampleApp with score := some 150 } sampleDB =
      Except.error (PyError.valueError scoreMsg) :=
  C8_score_range.1 { sampleApp with score := some 150 } sampleDB (by decide)

/-- When no active application exists for a candidate and job pair, a
fresh row for that pair cannot trip the partial unique constraint. -/
theorem violatesUniqueActive_of_noActive (db : DB) (c j : Nat) (a : Application)
    (hc : a.candidate = c) (hj : a.job = j)
    (h : hasActiveApplication db c j = false) :
    violatesUniqueActive db a = false := by
  unfold hasActiveApplication at h
  rw [List.any_eq_false] at h
  unfold violatesUniqueActive
  rw [List.any_eq_false]
  intro b hb
  have hbspec := h b hb
  simp at hbspec ⊢
  intro hid hbc hbj hbact
  by_cases hr : b.status = "rejected"
  · rw [hr] at hbact
    simp [activeStatuses] at hbact
  · have hh := hbspec (hbc.trans hc) (hbj.trans hj) hr
    rw [hh] at hbact
    simp [activeStatuses] at hbact

/-- C9: creating an application for a pair that still has one in a
non-terminal stage fails at the serializer with the duplicate message;
once every application of the pair is rejected or hired, creating a new
one (with a valid score) succeeds and persists the new row. -/
theorem C9_unique_active (db : DB) (nid c j : Nat) (sc : Option Int) (now : Nat) :
    (hasActiveApplication db c j = true →
      createApplication db nid c j sc "applied" now =
        Except.error (PyError.validationError
          "Candidate already has an active application for this job")) ∧
    (hasActiveApplication db c j = false → scoreOk sc = true →
      createApplication db nid c j sc "applied" now =
        Except.ok (upsertApplication db
          { id := nid, candidate := c, job := j, status := "applied", score := sc,
            applied_at := now, hired_at := none })) := by
  constructor
  · intro h
    unfold createApplication serializer_validate
    unfold hasActiveApplication at h
    have hex : ∃ x ∈ db.applications,
        (x.candidate = c ∧ x.job = j) ∧ ¬x.status = "rejected" ∧ ¬x.status = "hired" := by
      simpa using h
    simp [hex]
  · intro h hs
    have hvio := violatesUniqueActive_of_noActive db c j
      { id := nid, candidate := c, job := j, status := "applied", score := sc,
        applied_at := now, hired_at := none } rfl rfl h
    unfold createApplication serializer_validate
    unfold hasActiveApplication at h
    have hne : ¬ ∃ x ∈ db.applications,
        (x.candidate = c ∧ x.job = j) ∧ ¬x.status = "rejected" ∧ ¬x.status = "hired" := by
      simpa using h
    simp [hne, hs]
    unfold Application.save
    simp [hs, hvio]

/-- Witness for C9: the sample store already has an active application
for pair (1, 1), so a second create for the pair is refused. -/
theorem C9_unique_active_witness :
    createApplication sampleDB 9 1 1 none "applied" 0 =
      Except.error (PyError.validationError
        "Candidate already has an active application for this job") :=
  (C9_unique_active sampleDB 9 1 1 none 0).1 (by decide)

end Recruitment
